import Mathlib

/-!
# CADENCE async rate-limiting engine — shallow embedding

This file embeds the CADENCE throttle/debounce/batch engine
(`src/unnamed/part_004`) in Lean 4 and proves properties of it.

Modelling conventions:
* The high- and medium-precision variants of each constructor are textually
  identical in the source except for the clock source (`performance.now()`
  versus `Date.now()`).  The embedding abstracts the clock as an explicit
  `now : Nat` argument, so one definition embeds both tiers.
* The closed-over mutable variables of a wrapper become a state record; each
  source function (`asyncThrottled`, `cancel`, `flush`, the timer callback,
  the abort handler, `cleanup`) becomes a pure state transformer.
* The shared `pendingPromise` with its captured `resolvePending` /
  `rejectPending` continuations is modelled by two flags plus a `settle`
  effect: a step that invokes one of the stored continuations reports the
  value or error it delivered; a step that nulls the continuations without
  invoking them reports no effect (the promise is dropped unsettled).
  `resolvePending` and `rejectPending` are assigned and cleared together on
  every source path, so one flag `hasResolvers` stands for the pair.
* The wrapped async operation is a pure `f : α → Except ε β`: `.ok` is a
  resolved result, `.error` a rejection/throw.
* JavaScript `setTimeout(cb, d)` clamps negative delays to zero; an armed
  timer is modelled by its absolute fire time `now + d.toNat`.
* A JS `number` option that is present but `0` is falsy in the source's
  `maxWait ? … : …` tests; `optTruthy` reproduces that.
-/

namespace Cadence

instance {ε σ : Type} [DecidableEq ε] [DecidableEq σ] :
    DecidableEq (Except ε σ) := fun x y =>
  match x, y with
  | Except.ok a, Except.ok b =>
    if h : a = b then Decidable.isTrue (by rw [h])
    else Decidable.isFalse (by intro hc; cases hc; exact h rfl)
  | Except.ok _, Except.error _ => Decidable.isFalse (by intro hc; cases hc)
  | Except.error _, Except.ok _ => Decidable.isFalse (by intro hc; cases hc)
  | Except.error a, Except.error b =>
    if h : a = b then Decidable.isTrue (by rw [h])
    else Decidable.isFalse (by intro hc; cases hc; exact h rfl)

/-- Model of a `DOMException` as constructed by the source
(`new DOMException(message, name)`). -/
structure DomException where
  message : String
  name : String
deriving DecidableEq

/-- Model of `new DOMException("Operation was aborted", "AbortError")`. -/
def abortedException : DomException :=
  ⟨"Operation was aborted", "AbortError"⟩

/-- Model of `new DOMException("Operation was cancelled", "AbortError")`. -/
def cancelledException : DomException :=
  ⟨"Operation was cancelled", "AbortError"⟩

/-- How a stored continuation of the shared pending promise was invoked:
`resolved v` for `resolvePending(v)` (`v = none` is `undefined`),
`rejectedAbort e` for `rejectPending(DOMException)`, and
`rejectedOp e` for `rejectPending(error)` with a wrapped-operation failure. -/
inductive Settlement (β ε : Type) where
  | resolved : Option β → Settlement β ε
  | rejectedAbort : DomException → Settlement β ε
  | rejectedOp : ε → Settlement β ε
deriving DecidableEq

/-- What an invocation hands back to its caller: an already-settled value
(`Promise.resolve(v)` or the result of an awaited leading execution), the
shared pending promise, or a synchronous throw. -/
inductive InvokeRet (β ε : Type) where
  | value : Option β → InvokeRet β ε
  | pending : InvokeRet β ε
  | thrownAbort : DomException → InvokeRet β ε
  | thrownOp : ε → InvokeRet β ε
deriving DecidableEq

/-- Resolved configuration of a throttle/debounce wrapper, after option
destructuring with defaults. -/
structure RateCfg where
  wait : Nat
  leading : Bool
  trailing : Bool
  maxWait : Option Nat
deriving DecidableEq

/-- JS truthiness of an optional numeric option (`maxWait ? … : …`):
absent and `0` are both falsy. -/
def optTruthy : Option Nat → Bool
  | none => false
  | some m => m != 0

/-- Caller-supplied `ThrottleOptions` / `AsyncThrottleOptions`, before
defaulting (`none` = key omitted).  `hasAbortSignal` records whether an
`abortSignal` was supplied. -/
structure ThrottleOptions where
  leading : Option Bool := none
  trailing : Option Bool := none
  maxWait : Option Nat := none
  hasAbortSignal : Bool := false
deriving DecidableEq

/-- Caller-supplied `DebounceOptions` / `AsyncDebounceOptions`. -/
structure DebounceOptions where
  leading : Option Bool := none
  trailing : Option Bool := none
  maxWait : Option Nat := none
  hasAbortSignal : Bool := false
deriving DecidableEq

/-- Option destructuring of `throttleHighPrecision`
(`const { leading = true, trailing = true, maxWait } = syncOptions`). -/
def throttleHighCfg (wait : Nat) (o : ThrottleOptions) : RateCfg :=
  ⟨wait, o.leading.getD true, o.trailing.getD true, o.maxWait⟩

/-- Option destructuring of `throttleMediumPrecision`
(`const { leading = true, trailing = true, maxWait } = syncOptions`). -/
def throttleMediumCfg (wait : Nat) (o : ThrottleOptions) : RateCfg :=
  ⟨wait, o.leading.getD true, o.trailing.getD true, o.maxWait⟩

/-- Option destructuring of `throttleLowPrecision`
(`const { leading = true, trailing = false } = options`); the low tier never
reads `maxWait`. -/
def throttleLowCfg (wait : Nat) (o : ThrottleOptions) : RateCfg :=
  ⟨wait, o.leading.getD true, o.trailing.getD false, none⟩

/-- Option destructuring of `debounceHighPrecision` and
`debounceMediumPrecision`
(`const { leading = false, trailing = true, maxWait } = syncOptions`). -/
def debounceHighCfg (wait : Nat) (o : DebounceOptions) : RateCfg :=
  ⟨wait, o.leading.getD false, o.trailing.getD true, o.maxWait⟩

/-! ## Throttle state machine (high- and medium-precision tiers) -/

/-- The closed-over mutable variables of `throttleHighPrecision` /
`throttleMediumPrecision`.  `timeoutId` is the absolute fire time of the
armed timer; `hasResolvers` stands for the `resolvePending`/`rejectPending`
pair; `abortCleanup` records that the abort listener is installed. -/
structure ThrottleState (α β : Type) where
  timeoutId : Option Nat := none
  lastExecTime : Nat := 0
  lastArgs : Option α := none
  lastResult : Option β := none
  pendingPromise : Bool := false
  hasResolvers : Bool := false
  abortCleanup : Bool := false
  hasExecutedInCurrentBurst : Bool := false
deriving DecidableEq

/-- State right after `throttleHighPrecision` / `throttleMediumPrecision`
constructs a wrapper: every variable at its initialiser, the abort listener
installed iff a signal was supplied (`abortCleanup = setupAbortListener()`). -/
def throttleInit (hasSignal : Bool) : ThrottleState α β :=
  { abortCleanup := hasSignal }

/-- The `cleanup()` of the throttle (source lines 827-841): clear the timer, run
`abortCleanup()` (removing the abort listener), null the promise slot and
`lastArgs`, reset the burst flag.  It invokes no stored continuation. -/
def ThrottleState.cleanup (s : ThrottleState α β) : ThrottleState α β :=
  { s with timeoutId := none, abortCleanup := false, pendingPromise := false,
           hasResolvers := false, lastArgs := none,
           hasExecutedInCurrentBurst := false }

/-- The throttle's `abortHandler` (source lines 859-867): it calls
`cleanup()` and then, if `pendingPromise` survives (it cannot — `cleanup`
just nulled it), nulls it again.  No continuation is ever invoked; the
source comment "The promise will be rejected when it's awaited" does not
correspond to anything the code does. -/
def throttleAbortHandler (s : ThrottleState α β) :
    ThrottleState α β × Option (Settlement β ε) :=
  let s1 := s.cleanup
  (if s1.pendingPromise then { s1 with pendingPromise := false } else s1, none)

/-- The throttle's `cancel()` (source lines 978-994): clear the timer,
reject the pending promise (if the continuations exist) with the
cancellation `DOMException`, remove the abort listener, null the promise
slot; `lastArgs` is deliberately retained for a later `flush`. -/
def throttleCancel (s : ThrottleState α β) :
    ThrottleState α β × Option (Settlement β ε) :=
  (⟨none, s.lastExecTime, s.lastArgs, s.lastResult, false, false, false,
    s.hasExecutedInCurrentBurst⟩,
   if s.hasResolvers then some (Settlement.rejectedAbort cancelledException)
   else none)

/-- Result of a throttle `flush()` step. -/
structure ThrFlushOut (α β ε : Type) where
  state : ThrottleState α β
  settle : Option (Settlement β ε)
  ret : Except ε (Option β)
  exec : Option α
deriving DecidableEq

/-- The throttle's `flush()` (source lines 996-1044).  `aborted` is
`abortSignal?.aborted` at call time. -/
def throttleFlush (f : α → Except ε β) (aborted : Bool)
    (s : ThrottleState α β) : ThrFlushOut α β ε :=
  let s := { s with timeoutId := none }
  match s.lastArgs with
  | some a =>
    if aborted then
      ⟨{ s with pendingPromise := false, hasResolvers := false },
       if s.hasResolvers then some (Settlement.resolved s.lastResult)
       else none,
       Except.ok s.lastResult, none⟩
    else
      let s := { s with lastArgs := none }
      match f a with
      | Except.ok r =>
        ⟨{ s with lastResult := some r, pendingPromise := false,
                  hasResolvers := false },
         if s.hasResolvers then some (Settlement.resolved (some r)) else none,
         Except.ok (some r), some a⟩
      | Except.error e =>
        ⟨{ s with pendingPromise := false, hasResolvers := false },
         if s.hasResolvers then some (Settlement.rejectedOp e) else none,
         Except.error e, some a⟩
  | none =>
    ⟨{ s with pendingPromise := false, hasResolvers := false },
     if s.hasResolvers then some (Settlement.resolved s.lastResult) else none,
     Except.ok s.lastResult, none⟩

/-- Result of one throttle invocation step. -/
structure ThrStep (α β ε : Type) where
  state : ThrottleState α β
  settle : Option (Settlement β ε)
  ret : InvokeRet β ε
  exec : Option (Nat × α)
deriving DecidableEq

/-- The throttle's `asyncThrottled` body (source lines 875-976), one
invocation with arguments `a` at clock reading `now`; `exec` records the
wrapped-operation call this step performs, if any. -/
def throttleInvoke (cfg : RateCfg) (f : α → Except ε β) (aborted : Bool)
    (now : Nat) (a : α) (s : ThrottleState α β) : ThrStep α β ε :=
  if aborted then ⟨s, none, InvokeRet.thrownAbort abortedException, none⟩
  else
    let elapsed : Int := (now : Int) - (s.lastExecTime : Int)
    if cfg.leading = true ∧ (s.lastExecTime = 0 ∨ (cfg.wait : Int) ≤ elapsed) then
      -- leading edge: stamp time and burst flag, clear timer, drop any
      -- pending promise (the source nulls it without settling), keep
      -- `lastArgs` iff trailing is enabled, then execute.
      let s := { s with lastExecTime := now, hasExecutedInCurrentBurst := true,
                        timeoutId := none, pendingPromise := false,
                        hasResolvers := false,
                        lastArgs := if cfg.trailing then some a else none }
      match f a with
      | Except.ok r =>
        ⟨{ s with lastResult := some r }, none,
         InvokeRet.value (some r), some (now, a)⟩
      | Except.error e => ⟨s, none, InvokeRet.thrownOp e, some (now, a)⟩
    else if cfg.leading = true ∧ s.hasExecutedInCurrentBurst = true ∧
        elapsed < (cfg.wait : Int) ∧ cfg.trailing = false then
      ⟨s, none, InvokeRet.value s.lastResult, none⟩
    else if cfg.trailing = true then
      let s := { s with lastArgs := some a, timeoutId := none }
      let s := if s.pendingPromise then s
               else { s with pendingPromise := true, hasResolvers := true }
      let delay : Int :=
        if optTruthy cfg.maxWait = true ∧ 0 < elapsed then
          min (cfg.wait : Int) ((cfg.maxWait.getD 0 : Int) - elapsed)
        else (cfg.wait : Int)
      ⟨{ s with timeoutId := some (now + delay.toNat) }, none,
       InvokeRet.pending, none⟩
    else
      ⟨s, none, InvokeRet.value s.lastResult, none⟩

/-- Result of a timer-callback step. -/
structure ThrFire (α β ε : Type) where
  state : ThrottleState α β
  settle : Option (Settlement β ε)
  exec : Option (Nat × α)
deriving DecidableEq

/-- The throttle's trailing-edge timer callback (source lines 943-969),
firing at time `t` with abort flag `aborted`. -/
def throttleTimerFire (f : α → Except ε β) (aborted : Bool) (t : Nat)
    (s : ThrottleState α β) : ThrFire α β ε :=
  let s := { s with timeoutId := none }
  match s.lastArgs with
  | some a =>
    if aborted then
      ⟨{ s with pendingPromise := false, hasResolvers := false },
       if s.hasResolvers then some (Settlement.resolved s.lastResult)
       else none, none⟩
    else
      let s := { s with lastExecTime := t, hasExecutedInCurrentBurst := false,
                        lastArgs := none }
      match f a with
      | Except.ok r =>
        ⟨{ s with lastResult := some r, pendingPromise := false,
                  hasResolvers := false },
         if s.hasResolvers then some (Settlement.resolved (some r)) else none,
         some (t, a)⟩
      | Except.error e =>
        ⟨{ s with pendingPromise := false, hasResolvers := false },
         if s.hasResolvers then some (Settlement.rejectedOp e) else none,
         some (t, a)⟩
  | none =>
    ⟨{ s with pendingPromise := false, hasResolvers := false },
     if s.hasResolvers then some (Settlement.resolved s.lastResult) else none,
     none⟩

/-! ## Debounce state machine (high- and medium-precision tiers) -/

/-- The closed-over mutable variables of `debounceHighPrecision` /
`debounceMediumPrecision` (no burst flag in the debounce). -/
structure DebounceState (α β : Type) where
  timeoutId : Option Nat := none
  lastExecTime : Nat := 0
  lastArgs : Option α := none
  lastResult : Option β := none
  pendingPromise : Bool := false
  hasResolvers : Bool := false
  abortCleanup : Bool := false
deriving DecidableEq

/-- State right after `debounceHighPrecision` / `debounceMediumPrecision`
constructs a wrapper. -/
def debounceInit (hasSignal : Bool) : DebounceState α β :=
  { abortCleanup := hasSignal }

/-- The `cleanup()` of the debounce (source lines 541-554): clear the timer, run
`abortCleanup()`, null the promise slot and `lastArgs`.  It invokes no
stored continuation. -/
def DebounceState.cleanup (s : DebounceState α β) : DebounceState α β :=
  { s with timeoutId := none, abortCleanup := false, pendingPromise := false,
           hasResolvers := false, lastArgs := none }

/-- The debounce's `abortHandler` (source lines 691-696): `cleanup()` first,
then `if (rejectPending) rejectPending(abort DOMException)`.  Because
`cleanup` has already nulled `rejectPending`, the guard is false and the
rejection never happens; the translation keeps the guard verbatim. -/
def debounceAbortHandler (s : DebounceState α β) :
    DebounceState α β × Option (Settlement β ε) :=
  let s1 := s.cleanup
  (s1,
   if s1.hasResolvers then some (Settlement.rejectedAbort abortedException)
   else none)

/-- The debounce's `cancel()` (source lines 658-667): clear the timer,
reject the pending promise (the continuations are still live here, unlike in
the abort handler), then `cleanup()` — which also clears `lastArgs`. -/
def debounceCancel (s : DebounceState α β) :
    DebounceState α β × Option (Settlement β ε) :=
  let s1 := { s with timeoutId := none }
  (s1.cleanup,
   if s1.hasResolvers then some (Settlement.rejectedAbort cancelledException)
   else none)

/-- Result of a debounce `flush()` step. -/
structure DebFlushOut (α β ε : Type) where
  state : DebounceState α β
  settle : Option (Settlement β ε)
  ret : Except ε (Option β)
  exec : Option α
deriving DecidableEq

/-- The debounce's `flush()` (source lines 669-682): when `lastArgs` is
present and the signal not aborted, it calls `cleanup()` — dropping any
pending promise without settling it — then runs the wrapped operation and
returns its result; otherwise it returns `lastResult` and touches nothing. -/
def debounceFlush (f : α → Except ε β) (aborted : Bool)
    (s : DebounceState α β) : DebFlushOut α β ε :=
  match s.lastArgs with
  | some a =>
    if aborted then ⟨s, none, Except.ok s.lastResult, none⟩
    else
      let s1 := s.cleanup
      match f a with
      | Except.ok r =>
        ⟨{ s1 with lastResult := some r }, none, Except.ok (some r), some a⟩
      | Except.error e => ⟨s1, none, Except.error e, some a⟩
  | none => ⟨s, none, Except.ok s.lastResult, none⟩

/-- Result of one debounce invocation step. -/
structure DebStep (α β ε : Type) where
  state : DebounceState α β
  settle : Option (Settlement β ε)
  ret : InvokeRet β ε
  exec : Option (Nat × α)
deriving DecidableEq

/-- The debounce's `asyncDebounced` body (source lines 566-656), one
invocation with arguments `a` at clock reading `now`. -/
def debounceInvoke (cfg : RateCfg) (f : α → Except ε β) (aborted : Bool)
    (now : Nat) (a : α) (s : DebounceState α β) : DebStep α β ε :=
  if aborted then ⟨s, none, InvokeRet.thrownAbort abortedException, none⟩
  else
    let elapsed : Int := (now : Int) - (s.lastExecTime : Int)
    -- clear any armed timer, store the arguments, lazily allocate the
    -- shared pending promise
    let s := { s with timeoutId := none, lastArgs := some a }
    let s := if s.pendingPromise then s
             else { s with pendingPromise := true, hasResolvers := true }
    if cfg.leading = true ∧ (s.lastExecTime = 0 ∨ (cfg.wait : Int) ≤ elapsed) then
      let s := { s with lastExecTime := now }
      match f a with
      | Except.ok r =>
        ⟨{ s with lastResult := some r, pendingPromise := false,
                  hasResolvers := false },
         if s.hasResolvers then some (Settlement.resolved (some r)) else none,
         InvokeRet.value (some r), some (now, a)⟩
      | Except.error e =>
        ⟨{ s with pendingPromise := false, hasResolvers := false },
         if s.hasResolvers then some (Settlement.rejectedOp e) else none,
         InvokeRet.thrownOp e, some (now, a)⟩
    else if cfg.trailing = true then
      let delay : Int :=
        if optTruthy cfg.maxWait = true then
          min (cfg.wait : Int) ((cfg.maxWait.getD 0 : Int) - elapsed)
        else (cfg.wait : Int)
      ⟨{ s with timeoutId := some (now + delay.toNat) }, none,
       InvokeRet.pending, none⟩
    else
      ⟨s, none, InvokeRet.pending, none⟩

/-- Result of a debounce timer-callback step. -/
structure DebFire (α β ε : Type) where
  state : DebounceState α β
  settle : Option (Settlement β ε)
  exec : Option (Nat × α)
deriving DecidableEq

/-- The debounce's trailing-edge timer callback (source lines 619-652),
firing at time `t` (the source callback performs no abort check). -/
def debounceTimerFire (f : α → Except ε β) (t : Nat)
    (s : DebounceState α β) : DebFire α β ε :=
  let s := { s with timeoutId := none }
  match s.lastArgs with
  | some a =>
    let s := { s with lastExecTime := t, lastArgs := none }
    match f a with
    | Except.ok r =>
      ⟨{ s with lastResult := some r, pendingPromise := false,
                hasResolvers := false },
       if s.hasResolvers then some (Settlement.resolved (some r)) else none,
       some (t, a)⟩
    | Except.error e =>
      ⟨{ s with pendingPromise := false, hasResolvers := false },
       if s.hasResolvers then some (Settlement.rejectedOp e) else none,
       some (t, a)⟩
  | none =>
    ⟨{ s with pendingPromise := false, hasResolvers := false },
     if s.hasResolvers then some (Settlement.resolved s.lastResult) else none,
     none⟩

/-! ## Debounce burst traces

`debRun` replays a list of timed invocations against a fresh debounce
wrapper: before each invocation the armed timer fires if its fire time is
strictly earlier than the invocation, and after the last invocation the
remaining armed timer fires.  The second component accumulates every
wrapped-operation call as a `(time, args)` record. -/

/-- One trace step: fire a due timer, then perform the invocation. -/
def debStepEvent (cfg : RateCfg) (f : α → Except ε β) (ev : Nat × α)
    (acc : DebounceState α β × List (Nat × α)) :
    DebounceState α β × List (Nat × α) :=
  let fired :=
    match acc.1.timeoutId with
    | some ft =>
      if ft < ev.1 then
        let r := debounceTimerFire f ft acc.1
        (r.state, acc.2 ++ r.exec.toList)
      else acc
    | none => acc
  let r := debounceInvoke cfg f false ev.1 ev.2 fired.1
  (r.state, fired.2 ++ r.exec.toList)

/-- Replay a full invocation trace from a freshly constructed wrapper. -/
def debRun (cfg : RateCfg) (f : α → Except ε β) (evs : List (Nat × α)) :
    DebounceState α β × List (Nat × α) :=
  let out := evs.foldl (fun acc ev => debStepEvent cfg f ev acc)
    (debounceInit false, [])
  match out.1.timeoutId with
  | some ft =>
    let r := debounceTimerFire f ft out.1
    (r.state, out.2 ++ r.exec.toList)
  | none => out

/-- A burst whose inter-arrival gaps are all strictly positive and strictly
below `W`, starting strictly after time `tp`. -/
def burstGapsB (W : Nat) : Nat → List (Nat × α) → Bool
  | _, [] => true
  | tp, (t, _) :: l => decide (tp < t) && decide (t < tp + W) && burstGapsB W t l

/-- Last event of a nonempty trace written as head plus tail. -/
def lastEvent : Nat × α → List (Nat × α) → Nat × α
  | d, [] => d
  | _, e :: l => lastEvent e l

/-! ## Batch throttle -/

/-- Resolved `throttleBatch` configuration. -/
structure BatchCfg where
  wait : Nat
  batchSize : Nat
  maxWait : Nat
deriving DecidableEq

/-- Caller-supplied `BatchThrottleOptions` (`none` = key omitted). -/
structure BatchOptions where
  batchSize : Option Nat := none
  maxWait : Option Nat := none
deriving DecidableEq

/-- Option destructuring of `throttleBatch`
(`const { batchSize = 10, maxWait = wait * 3 } = options`). -/
def mkBatchCfg (wait : Nat) (o : BatchOptions) : BatchCfg :=
  ⟨wait, o.batchSize.getD 10, o.maxWait.getD (wait * 3)⟩

/-- The closed-over mutable variables of `throttleBatch`: the ordered event
buffer, the armed timer's absolute fire time, and the enqueue time of the
buffer's first element (`firstBatchTime` in the source). -/
structure BatchState (α : Type) where
  batch : List α
  timeoutId : Option Nat
  firstBatchTime : Nat
deriving DecidableEq

/-- Fresh `throttleBatch` state. -/
def batchInit : BatchState α := ⟨[], none, 0⟩

/-- Result of a batch step: the new state plus the buffer handed to the
caller-provided batch function, if it was invoked. -/
structure BatchOut (α : Type) where
  state : BatchState α
  call : Option (List α)
deriving DecidableEq

/-- The batch `flush` (source lines 403-413): hand the whole buffer to the
batch function only when it is nonempty, then clear buffer and
`firstBatchTime`; always null the timer handle. -/
def batchFlush (s : BatchState α) : BatchOut α :=
  if 0 < s.batch.length then ⟨⟨[], none, 0⟩, some s.batch⟩
  else ⟨{ s with timeoutId := none }, none⟩

/-- The `throttleBatch` invocation body (source lines 415-435) at clock
reading `now`. -/
def batchInvoke (cfg : BatchCfg) (now : Nat) (a : α) (s : BatchState α) :
    BatchOut α :=
  let fbt := if s.batch.length = 0 then now else s.firstBatchTime
  let b := s.batch ++ [a]
  if cfg.batchSize ≤ b.length ∨ cfg.maxWait ≤ now - fbt then
    batchFlush ⟨b, none, fbt⟩
  else
    ⟨⟨b, some (now + cfg.wait), fbt⟩, none⟩

/-- The batch timer callback is `flush` itself
(`timeoutId = setTimeout(flush, wait)`). -/
def batchTimerFire (s : BatchState α) : BatchOut α :=
  batchFlush s

/-! ## Constructors

None of the constructors (`throttle`, `debounce`, `throttleBatch`,
source lines 1529-1546, 1561-1578, 392-397) examines `wait`, `maxWait` or
`batchSize`: each destructures its options and returns a wrapper.  The
`Except` codomain records the possibility of a construction-time failure;
the translation of the source always returns `.ok`. -/

/-- Construction `throttle(fn, wait, options)` at high/medium precision: destructure,
install the abort listener, return the wrapper — no validation of `wait` or
`maxWait` anywhere on the path. -/
def throttleConstruct (wait : Int) (o : ThrottleOptions) :
    Except DomException (ThrottleState α β) :=
  Except.ok (throttleInit o.hasAbortSignal)

/-- Construction `debounce(fn, wait, options)` at high/medium precision: no validation. -/
def debounceConstruct (wait : Int) (o : DebounceOptions) :
    Except DomException (DebounceState α β) :=
  Except.ok (debounceInit o.hasAbortSignal)

/-- Construction `throttleBatch(fn, wait, options)`: defaults are applied, nothing is
validated (`batchSize < 1` and `wait ≤ 0` are accepted). -/
def throttleBatchConstruct (wait : Int) (o : BatchOptions) :
    Except DomException (BatchCfg × BatchState α) :=
  Except.ok (mkBatchCfg wait.toNat o, batchInit)

/-- Returns `true` iff an `Except` is `.ok`. -/
def exceptOk : Except ε σ → Bool
  | Except.ok _ => true
  | Except.error _ => false

/-! ## Concrete operations and states used in closed statements -/

/-- A wrapped operation that always resolves with its argument. -/
def idOp : Nat → Except Nat Nat := fun n => Except.ok n

/-- A wrapped operation that always rejects (with error code 7). -/
def failOp : Nat → Except Nat Nat := fun _ => Except.error 7

/-- Throttle wrapper state with one caller awaiting the pending promise:
the state reached from a fresh `leading:false, trailing:true` wrapper (with
an abort signal) after a single invocation with argument `5` at time `0`
under `wait = 100`. -/
def pendingThrottle : ThrottleState Nat Nat :=
  { timeoutId := some 100, lastArgs := some 5, pendingPromise := true,
    hasResolvers := true, abortCleanup := true }

/-- Debounce wrapper state with one caller awaiting the pending promise:
the state reached from a fresh trailing-only wrapper (with an abort signal)
after a single invocation with argument `5` at time `0` under `wait = 100`. -/
def pendingDebounce : DebounceState Nat Nat :=
  { timeoutId := some 100, lastArgs := some 5, pendingPromise := true,
    hasResolvers := true, abortCleanup := true }

/-- Debounce wrapper state in the middle of a trailing-only burst without
`maxWait`: the last invocation was at `tp`, its timer is armed for
`tp + W`, no execution has happened yet. -/
def midState (W tp : Nat) (ap : α) : DebounceState α β :=
  { timeoutId := some (tp + W), lastExecTime := 0, lastArgs := some ap,
    lastResult := none, pendingPromise := true, hasResolvers := true,
    abortCleanup := false }

/-! ## Theorems -/

/-- C1 (code bug, evaluated at the failing input).  The claim: when the
abort signal fires while a `pendingPromise` is outstanding, every awaiting
caller is rejected with an abort-kind error.  The code does clear the armed
timer and remove the abort listener, but it never rejects: both abort
handlers call `cleanup()` first, which nulls `rejectPending`, so the
debounce handler's `if (rejectPending)` guard is already false (and the
throttle handler contains no rejection call at all).  Evaluated here at the
state reached after one invocation on a `wait = 100` trailing-only wrapper:
the handler produces no settlement (`settle = none`), leaving the awaiting
caller unsettled forever. -/
theorem abortHandlerLeavesCallersUnsettled :
    (debounceInvoke ⟨100, false, true, none⟩ idOp false 0 5
        (debounceInit true)).state = pendingDebounce ∧
    pendingDebounce.pendingPromise = true ∧
    (@debounceAbortHandler Nat Nat Nat pendingDebounce).2 =
      (none : Option (Settlement Nat Nat)) ∧
    (@debounceAbortHandler Nat Nat Nat pendingDebounce).1.timeoutId = none ∧
    (@debounceAbortHandler Nat Nat Nat pendingDebounce).1.abortCleanup = false ∧
    (@debounceAbortHandler Nat Nat Nat pendingDebounce).1.pendingPromise = false ∧
    (throttleInvoke ⟨100, false, true, none⟩ idOp false 0 5
        (throttleInit true)).state = pendingThrottle ∧
    pendingThrottle.pendingPromise = true ∧
    (@throttleAbortHandler Nat Nat Nat pendingThrottle).2 =
      (none : Option (Settlement Nat Nat)) ∧
    (@throttleAbortHandler Nat Nat Nat pendingThrottle).1.timeoutId = none ∧
    (@throttleAbortHandler Nat Nat Nat pendingThrottle).1.abortCleanup = false ∧
    (@throttleAbortHandler Nat Nat Nat pendingThrottle).1.pendingPromise = false := by
  decide

/-- C4 (counterexample).  The claim says constructing with `wait ≤ 0`,
`maxWait < wait`, or `batchSize < 1` fails fast at construction.  The
constructors perform no validation at all: each of these misuse
configurations is accepted without error. -/
theorem constructNoValidationCounterexample :
    exceptOk (@throttleConstruct Nat Nat 0 {}) = true ∧
    exceptOk (@throttleConstruct Nat Nat 100 { maxWait := some 1 }) = true ∧
    exceptOk (@debounceConstruct Nat Nat (-5) {}) = true ∧
    exceptOk (@throttleBatchConstruct Nat 5 { batchSize := some 0 }) = true := by
  decide

/-- C4 (amended).  No constructor validates its parameters: for every
`wait` (including `wait ≤ 0`), every `maxWait` (including `maxWait < wait`)
and every `batchSize` (including `batchSize < 1`), construction of a
throttle, debounce, or batch-throttle wrapper succeeds without raising. -/
theorem constructNeverFails (wait : Int) (o : ThrottleOptions)
    (od : DebounceOptions) (ob : BatchOptions) :
    exceptOk (@throttleConstruct Nat Nat wait o) = true ∧
    exceptOk (@debounceConstruct Nat Nat wait od) = true ∧
    exceptOk (@throttleBatchConstruct Nat wait ob) = true :=
  ⟨rfl, rfl, rfl⟩

/-- C5 (counterexample).  The claim says `trailing` defaults to `true` at
every precision tier of the throttle family.  `throttleLowPrecision`
destructures `{ leading = true, trailing = false }`, so with `trailing`
omitted the low tier resolves it to `false`. -/
theorem lowTierTrailingDefaultCounterexample :
    (throttleLowCfg 100 {}).trailing = false ∧
    (throttleLowCfg 100 {}).trailing ≠ true := by
  decide

/-- C5 (amended).  When the options omit the `trailing` key, the throttle
family defaults it to `true` at the high and medium precision tiers, but to
`false` at the low precision tier. -/
theorem trailingDefaultsByTier (w : Nat) (o : ThrottleOptions)
    (h : o.trailing = none) :
    (throttleHighCfg w o).trailing = true ∧
    (throttleMediumCfg w o).trailing = true ∧
    (throttleLowCfg w o).trailing = false := by
  simp [throttleHighCfg, throttleMediumCfg, throttleLowCfg, h]

/-- Witness for `trailingDefaultsByTier` at `wait = 100` and an empty
options object. -/
theorem trailingDefaultsByTierWitness :
    (throttleHighCfg 100 {}).trailing = true ∧
    (throttleMediumCfg 100 {}).trailing = true ∧
    (throttleLowCfg 100 {}).trailing = false :=
  trailingDefaultsByTier 100 {} rfl

/-- C7 (confirmed).  `cancel()` on a high- or medium-precision throttle or
debounce wrapper cancels the armed timer, rejects the outstanding
`pendingPromise` (if any) with `DOMException("Operation was cancelled",
"AbortError")` — whose `name` is `"AbortError"` — and clears the promise
slot, so `isPending()` is false afterwards and no timer remains that could
cause a wrapped-operation call (the translation of `cancel` contains no
call of the wrapped operation).  `lastArgs` is retained by the throttle and
cleared by the debounce.  The hypotheses record the source invariant that
the stored continuations exist exactly when `pendingPromise` does. -/
theorem cancelRejectsAndClears (s : ThrottleState α β) (d : DebounceState α β)
    (hs : s.hasResolvers = s.pendingPromise)
    (hd : d.hasResolvers = d.pendingPromise) :
    (@throttleCancel α β ε s).1.timeoutId = none ∧
    (@throttleCancel α β ε s).1.pendingPromise = false ∧
    (@throttleCancel α β ε s).1.lastArgs = s.lastArgs ∧
    (s.pendingPromise = true →
      (@throttleCancel α β ε s).2 =
        some (Settlement.rejectedAbort cancelledException)) ∧
    (@debounceCancel α β ε d).1.timeoutId = none ∧
    (@debounceCancel α β ε d).1.pendingPromise = false ∧
    (@debounceCancel α β ε d).1.lastArgs = none ∧
    (d.pendingPromise = true →
      (@debounceCancel α β ε d).2 =
        some (Settlement.rejectedAbort cancelledException)) ∧
    cancelledException.name = "AbortError" := by
  refine ⟨rfl, rfl, rfl, ?_, rfl, rfl, rfl, ?_, rfl⟩
  · intro hp
    simp [throttleCancel, hs, hp]
  · intro hp
    simp [debounceCancel, DebounceState.cleanup, hd, hp]

/-- Witness for `cancelRejectsAndClears` at the concrete one-caller-pending
states. -/
theorem cancelRejectsAndClearsWitness :
    (@throttleCancel Nat Nat Nat pendingThrottle).1.timeoutId = none ∧
    (@throttleCancel Nat Nat Nat pendingThrottle).1.pendingPromise = false ∧
    (@throttleCancel Nat Nat Nat pendingThrottle).1.lastArgs =
      pendingThrottle.lastArgs ∧
    (pendingThrottle.pendingPromise = true →
      (@throttleCancel Nat Nat Nat pendingThrottle).2 =
        some (Settlement.rejectedAbort cancelledException)) ∧
    (@debounceCancel Nat Nat Nat pendingDebounce).1.timeoutId = none ∧
    (@debounceCancel Nat Nat Nat pendingDebounce).1.pendingPromise = false ∧
    (@debounceCancel Nat Nat Nat pendingDebounce).1.lastArgs = none ∧
    (pendingDebounce.pendingPromise = true →
      (@debounceCancel Nat Nat Nat pendingDebounce).2 =
        some (Settlement.rejectedAbort cancelledException)) ∧
    cancelledException.name = "AbortError" :=
  cancelRejectsAndClears pendingThrottle pendingDebounce rfl rfl

/-- C9 (confirmed).  On the leading edge of a high- or medium-precision
throttle or debounce wrapper, `lastExecTime = now` is stamped before the
wrapped operation runs: whatever `f` returns (including a rejection), the
post-invocation state carries `lastExecTime = now`, and the step does
invoke the wrapped operation with this call's arguments. -/
theorem leadingExecutionAdvancesClock (cfg : RateCfg) (f : α → Except ε β)
    (now : Nat) (a : α) (s : ThrottleState α β) (d : DebounceState α β)
    (hl : cfg.leading = true)
    (hs : s.lastExecTime = 0 ∨
      (cfg.wait : Int) ≤ (now : Int) - (s.lastExecTime : Int))
    (hd : d.lastExecTime = 0 ∨
      (cfg.wait : Int) ≤ (now : Int) - (d.lastExecTime : Int)) :
    ((throttleInvoke cfg f false now a s).state.lastExecTime = now ∧
     (throttleInvoke cfg f false now a s).exec = some (now, a)) ∧
    ((debounceInvoke cfg f false now a d).state.lastExecTime = now ∧
     (debounceInvoke cfg f false now a d).exec = some (now, a)) := by
  constructor
  · rcases hs with h0 | hW
    · cases hfa : f a <;> simp [throttleInvoke, hl, h0, hfa]
    · cases hfa : f a <;> simp [throttleInvoke, hl, hW, hfa]
  · rcases hd with h0 | hW
    · cases hdp : d.pendingPromise <;> cases hfa : f a <;>
        simp [debounceInvoke, hl, h0, hdp, hfa]
    · cases hdp : d.pendingPromise <;> cases hfa : f a <;>
        simp [debounceInvoke, hl, hW, hdp, hfa]

/-- Witness for `leadingExecutionAdvancesClock`: a fresh `wait = 100`
wrapper invoked at time `50` with a wrapped operation that always rejects —
`lastExecTime` still advances to `50`. -/
theorem leadingExecutionAdvancesClockWitness :
    ((throttleInvoke ⟨100, true, true, none⟩ failOp false 50 5
        (throttleInit false)).state.lastExecTime = 50 ∧
     (throttleInvoke ⟨100, true, true, none⟩ failOp false 50 5
        (throttleInit false)).exec = some (50, 5)) ∧
    ((debounceInvoke ⟨100, true, true, none⟩ failOp false 50 5
        (debounceInit false)).state.lastExecTime = 50 ∧
     (debounceInvoke ⟨100, true, true, none⟩ failOp false 50 5
        (debounceInit false)).exec = some (50, 5)) :=
  leadingExecutionAdvancesClock ⟨100, true, true, none⟩ failOp 50 5
    (throttleInit false) (debounceInit false) rfl (Or.inl rfl) (Or.inl rfl)

/-- C2 (counterexample).  The claim says `flush()` with `lastArgs` present
and no abort resolves any outstanding `pendingPromise` with the new result.
On a debounce wrapper with one caller awaiting the pending promise,
`flush()` runs `cleanup()` before executing, so it returns the new result
to its own caller but produces no settlement at all: the awaiting caller's
promise is dropped unsettled, not resolved with `5`. -/
theorem debounceFlushDropsPromiseCounterexample :
    pendingDebounce.pendingPromise = true ∧
    pendingDebounce.lastArgs = some 5 ∧
    (debounceFlush idOp false pendingDebounce).ret = Except.ok (some 5) ∧
    (debounceFlush idOp false pendingDebounce).settle = none ∧
    ¬((debounceFlush idOp false pendingDebounce).settle =
        some (Settlement.resolved (some 5))) := by
  decide

/-- C2 (amended).  The claim holds in full for the throttle family: with
`lastArgs` present and no abort, `flush()` executes those arguments,
updates `lastResult`, resolves the outstanding pending promise with the
result and returns it; otherwise it returns `lastResult` and resolves any
pending promise with it; `pendingPromise` is null afterwards on every path
(so `isPending()` is false).  For the debounce family the execute path
instead runs `cleanup()` first: it executes `lastArgs`, updates
`lastResult` and returns the result with `isPending()` false afterwards,
but the outstanding pending promise is dropped without being settled; on
the no-`lastArgs` path it returns `lastResult` and leaves the state —
including any pending promise — completely untouched. -/
theorem flushContract (f : α → Except ε β) (s : ThrottleState α β)
    (d : DebounceState α β) :
    ((throttleFlush f false s).state.pendingPromise = false) ∧
    ((throttleFlush f false s).state.hasResolvers = false) ∧
    (∀ a r, s.lastArgs = some a → f a = Except.ok r →
      (throttleFlush f false s).ret = Except.ok (some r) ∧
      (throttleFlush f false s).state.lastResult = some r ∧
      (throttleFlush f false s).exec = some a ∧
      (s.hasResolvers = true →
        (throttleFlush f false s).settle =
          some (Settlement.resolved (some r)))) ∧
    (s.lastArgs = none →
      (throttleFlush f false s).ret = Except.ok s.lastResult ∧
      (throttleFlush f false s).exec = none ∧
      (s.hasResolvers = true →
        (throttleFlush f false s).settle =
          some (Settlement.resolved s.lastResult))) ∧
    (∀ a r, d.lastArgs = some a → f a = Except.ok r →
      (debounceFlush f false d).ret = Except.ok (some r) ∧
      (debounceFlush f false d).state.lastResult = some r ∧
      (debounceFlush f false d).exec = some a ∧
      (debounceFlush f false d).state.pendingPromise = false ∧
      (debounceFlush f false d).settle = none) ∧
    (d.lastArgs = none →
      (debounceFlush f false d).ret = Except.ok d.lastResult ∧
      (debounceFlush f false d).state = d) := by
  refine ⟨?_, ?_, ?_, ?_, ?_, ?_⟩
  · cases hla : s.lastArgs with
    | none => simp [throttleFlush, hla]
    | some a => cases hfa : f a <;> simp [throttleFlush, hla, hfa]
  · cases hla : s.lastArgs with
    | none => simp [throttleFlush, hla]
    | some a => cases hfa : f a <;> simp [throttleFlush, hla, hfa]
  · intro a r hla hfa
    refine ⟨?_, ?_, ?_, ?_⟩ <;> simp [throttleFlush, hla, hfa]
  · intro hla
    refine ⟨?_, ?_, ?_⟩ <;> simp [throttleFlush, hla]
  · intro a r hla hfa
    refine ⟨?_, ?_, ?_, ?_, ?_⟩ <;>
      simp [debounceFlush, DebounceState.cleanup, hla, hfa]
  · intro hla
    constructor <;> simp [debounceFlush, hla]

/-- Witness for `flushContract` at the concrete one-caller-pending states
with the identity operation. -/
theorem flushContractWitness :
    (throttleFlush idOp false pendingThrottle).ret = Except.ok (some 5) ∧
    (throttleFlush idOp false pendingThrottle).settle =
      some (Settlement.resolved (some 5)) ∧
    (throttleFlush idOp false pendingThrottle).state.pendingPromise = false ∧
    (debounceFlush idOp false pendingDebounce).ret = Except.ok (some 5) ∧
    (debounceFlush idOp false pendingDebounce).settle = none ∧
    (debounceFlush idOp false pendingDebounce).state.pendingPromise = false := by
  have h := flushContract idOp pendingThrottle pendingDebounce
  have ht := h.2.2.1 5 5 rfl rfl
  have hd := h.2.2.2.2.1 5 5 rfl rfl
  exact ⟨ht.1, ht.2.2.2 rfl, h.1, hd.1, hd.2.2.2.2, hd.2.2.2.1⟩

/-- C6 (counterexample).  The claim says that with `leading` and `trailing`
both false every invocation returns a promise that resolves with the
previous `lastResult`.  On a debounce wrapper so configured, the invocation
stores the arguments, allocates the shared pending promise and returns it
(`.pending`, not a resolved value), armed with no timer and accompanied by
no settlement — so nothing ever resolves it. -/
theorem debounceNeitherEdgeCounterexample :
    (debounceInvoke ⟨100, false, false, none⟩ idOp false 10 5
        (debounceInit false)).ret = InvokeRet.pending ∧
    ¬((debounceInvoke ⟨100, false, false, none⟩ idOp false 10 5
        (debounceInit false)).ret =
      InvokeRet.value (debounceInit false : DebounceState Nat Nat).lastResult) ∧
    (debounceInvoke ⟨100, false, false, none⟩ idOp false 10 5
        (debounceInit false)).state.timeoutId = none ∧
    (debounceInvoke ⟨100, false, false, none⟩ idOp false 10 5
        (debounceInit false)).settle = none ∧
    (debounceInvoke ⟨100, false, false, none⟩ idOp false 10 5
        (debounceInit false)).exec = none := by
  decide

/-- C6 (amended).  With `leading: false, trailing: false`, an invocation of
a high- or medium-precision throttle wrapper returns
`Promise.resolve(lastResult)` and changes nothing (no execution, no
settlement, no state change), exactly as claimed.  A debounce wrapper so
configured instead stores the arguments, allocates or joins the shared
pending promise and returns it with no timer armed and no settlement — the
returned promise is not resolved with `lastResult`. -/
theorem neitherEdgeInvoke (W : Nat) (mW : Option Nat) (f : α → Except ε β)
    (now : Nat) (a : α) (s : ThrottleState α β) (d : DebounceState α β) :
    (throttleInvoke ⟨W, false, false, mW⟩ f false now a s =
      ⟨s, none, InvokeRet.value s.lastResult, none⟩) ∧
    ((debounceInvoke ⟨W, false, false, mW⟩ f false now a d).ret =
      InvokeRet.pending) ∧
    ((debounceInvoke ⟨W, false, false, mW⟩ f false now a d).exec = none) ∧
    ((debounceInvoke ⟨W, false, false, mW⟩ f false now a d).settle = none) ∧
    ((debounceInvoke ⟨W, false, false, mW⟩ f false now a d).state.timeoutId =
      none) ∧
    ((debounceInvoke ⟨W, false, false, mW⟩ f false now a d).state.pendingPromise =
      true) ∧
    ((debounceInvoke ⟨W, false, false, mW⟩ f false now a d).state.lastArgs =
      some a) := by
  refine ⟨?_, ?_⟩
  · simp [throttleInvoke]
  · cases hdp : d.pendingPromise <;>
      simp [debounceInvoke, hdp]

/-- Normal form of one batch-throttle invocation step. -/
theorem batchInvoke_eq (cfg : BatchCfg) (now : Nat) (a : α)
    (s : BatchState α) :
    batchInvoke cfg now a s =
      (if cfg.batchSize ≤ (s.batch ++ [a]).length ∨
          cfg.maxWait ≤
            now - (if s.batch.length = 0 then now else s.firstBatchTime)
       then ⟨⟨[], none, 0⟩, some (s.batch ++ [a])⟩
       else ⟨⟨s.batch ++ [a], some (now + cfg.wait),
              if s.batch.length = 0 then now else s.firstBatchTime⟩,
             none⟩) := by
  by_cases hcond : cfg.batchSize ≤ (s.batch ++ [a]).length ∨
      cfg.maxWait ≤
        now - (if s.batch.length = 0 then now else s.firstBatchTime) <;>
    simp [batchInvoke, batchFlush, hcond]

/-- C8 (confirmed).  A batch-throttle invocation appends its argument tuple
to the buffer and flushes synchronously exactly when the buffer length has
reached `batchSize` or `now` is at least `maxWait` past `firstEnqueueTime`
(stamped to `now` when the buffer was empty); a flush hands the whole
buffer, in arrival order, to the batch function and clears both the buffer
and `firstEnqueueTime`; otherwise the element is buffered and the timer is
re-armed for `now + wait`. -/
theorem batchInvokeContract (cfg : BatchCfg) (now : Nat) (a : α)
    (s : BatchState α) :
    ((batchInvoke cfg now a s).call.isSome = true ↔
      (cfg.batchSize ≤ (s.batch ++ [a]).length ∨
        cfg.maxWait ≤
          now - (if s.batch.length = 0 then now else s.firstBatchTime))) ∧
    batchInvoke cfg now a s =
      (if cfg.batchSize ≤ (s.batch ++ [a]).length ∨
          cfg.maxWait ≤
            now - (if s.batch.length = 0 then now else s.firstBatchTime)
       then ⟨⟨[], none, 0⟩, some (s.batch ++ [a])⟩
       else ⟨⟨s.batch ++ [a], some (now + cfg.wait),
              if s.batch.length = 0 then now else s.firstBatchTime⟩,
             none⟩) := by
  refine ⟨?_, batchInvoke_eq cfg now a s⟩
  rw [batchInvoke_eq]
  by_cases hcond : cfg.batchSize ≤ (s.batch ++ [a]).length ∨
      cfg.maxWait ≤
        now - (if s.batch.length = 0 then now else s.firstBatchTime)
  · rw [if_pos hcond]
    exact iff_of_true rfl hcond
  · rw [if_neg hcond]
    exact iff_of_false (by simp) hcond

/-- C10 (confirmed).  In every state — hence along every sequence of
invocations and timer fires — a step of the batch throttle that invokes the
caller-provided batch function hands it a nonempty buffer, and the state it
leaves behind has an empty buffer and `firstEnqueueTime` reset to `0`. -/
theorem batchFnNonEmptyAndCleared (cfg : BatchCfg) (now : Nat) (a : α)
    (s s2 : BatchState α) (c c2 : List α) :
    ((batchInvoke cfg now a s).call = some c →
      c ≠ [] ∧ (batchInvoke cfg now a s).state.batch = [] ∧
      (batchInvoke cfg now a s).state.firstBatchTime = 0) ∧
    ((batchTimerFire s2).call = some c2 →
      c2 ≠ [] ∧ (batchTimerFire s2).state.batch = [] ∧
      (batchTimerFire s2).state.firstBatchTime = 0) := by
  constructor
  · intro hc
    rw [batchInvoke_eq] at hc ⊢
    by_cases hcond : cfg.batchSize ≤ (s.batch ++ [a]).length ∨
        cfg.maxWait ≤
          now - (if s.batch.length = 0 then now else s.firstBatchTime)
    · rw [if_pos hcond] at hc ⊢
      simp only [Option.some.injEq] at hc
      refine ⟨?_, rfl, rfl⟩
      rw [← hc]
      simp
    · rw [if_neg hcond] at hc
      simp at hc
  · intro hc
    unfold batchTimerFire batchFlush at hc ⊢
    by_cases hb : 0 < s2.batch.length
    · rw [if_pos hb] at hc ⊢
      simp only [Option.some.injEq] at hc
      refine ⟨?_, rfl, rfl⟩
      intro hnil
      rw [hc, hnil] at hb
      simp at hb
    · rw [if_neg hb] at hc
      simp at hc

/-- Witness for `batchFnNonEmptyAndCleared`: one invocation on a fresh
wrapper with `batchSize = 1` flushes immediately with the singleton
buffer. -/
theorem batchFnNonEmptyAndClearedWitness :
    ([7] : List Nat) ≠ [] ∧
    (batchInvoke ⟨10, 1, 30⟩ 5 7 (batchInit : BatchState Nat)).state.batch =
      [] ∧
    (batchInvoke ⟨10, 1, 30⟩ 5 7
      (batchInit : BatchState Nat)).state.firstBatchTime = 0 :=
  (batchFnNonEmptyAndCleared ⟨10, 1, 30⟩ 5 7 batchInit batchInit
    [7] [7]).1 (by decide)

/-- The first invocation of a trailing-only burst (no `maxWait`) moves a
fresh wrapper to the mid-burst state. -/
theorem debStep_from_init (W t0 : Nat) (f : α → Except ε β) (a0 : α) :
    debStepEvent ⟨W, false, true, none⟩ f (t0, a0)
      ((debounceInit false : DebounceState α β), []) =
      (midState W t0 a0, []) := by
  simp [debStepEvent, debounceInit, debounceInvoke, midState, optTruthy]

/-- A further burst invocation strictly inside the armed timer's window
re-arms the timer and replaces `lastArgs`, staying in the mid-burst
state. -/
theorem debStep_from_mid (W : Nat) (f : α → Except ε β) (tp t : Nat)
    (ap a : α) (E : List (Nat × α)) (h1 : tp < t) (h2 : t < tp + W) :
    debStepEvent ⟨W, false, true, none⟩ f (t, a) (midState W tp ap, E) =
      (midState W t a, E) := by
  have hn : ¬ (tp + W < t) := by omega
  simp [debStepEvent, midState, debounceInvoke, optTruthy, hn]

/-- Folding the tail of a burst through the trace keeps the wrapper in the
mid-burst state of the most recent invocation and performs no execution. -/
theorem debRun_fold_mid (W : Nat) (f : α → Except ε β) :
    ∀ (l : List (Nat × α)) (tp : Nat) (ap : α) (E : List (Nat × α)),
      burstGapsB W tp l = true →
      List.foldl (fun acc ev => debStepEvent ⟨W, false, true, none⟩ f ev acc)
          (midState W tp ap, E) l =
        (midState W (lastEvent (tp, ap) l).1 (lastEvent (tp, ap) l).2, E)
  | [], tp, ap, E, _ => by simp [lastEvent]
  | (t, a) :: l, tp, ap, E, h => by
    have hh : (tp < t ∧ t < tp + W) ∧ burstGapsB W t l = true := by
      simpa [burstGapsB, Bool.and_eq_true, decide_eq_true_eq,
        and_assoc] using h
    rw [List.foldl_cons, debStep_from_mid W f tp t ap a E hh.1.1 hh.1.2]
    exact debRun_fold_mid W f l t a E hh.2

/-- C3 (amended).  For a trailing-only (leading false) high- or
medium-precision debounce wrapper *without `maxWait`*, a finite burst whose
inter-arrival gaps are all strictly less than `wait` produces exactly one
wrapped-operation call, with the last invocation's arguments, exactly
`wait` ms after the last call (hence within `wait` ms of it).  The
`maxWait` half of the original claim fails on the code — see the
counterexample — because the source derives the forced-execution deadline
from `lastExecTime` (initially the clock origin), not from the first call
of the burst. -/
theorem debounceSuppressionLaw (W : Nat) (f : α → Except ε β) (t0 : Nat)
    (a0 : α) (l : List (Nat × α)) (h : burstGapsB W t0 l = true) :
    (debRun ⟨W, false, true, none⟩ f ((t0, a0) :: l)).2 =
      [((lastEvent (t0, a0) l).1 + W, (lastEvent (t0, a0) l).2)] := by
  unfold debRun
  rw [List.foldl_cons, debStep_from_init, debRun_fold_mid W f l t0 a0 [] h]
  cases hf : f (lastEvent (t0, a0) l).2 <;>
    simp [midState, debounceTimerFire, hf]

/-- Witness for `debounceSuppressionLaw`: burst at times 5 and 50 with
`wait = 100`; the single execution happens at time 150 with the second
call's argument. -/
theorem debounceSuppressionLawWitness :
    burstGapsB 100 5 ([(50, 8)] : List (Nat × Nat)) = true ∧
    (debRun ⟨100, false, true, none⟩ idOp [(5, 7), (50, 8)]).2 =
      [((lastEvent (5, 7) [(50, 8)]).1 + 100, (lastEvent (5, 7) [(50, 8)]).2)] :=
  ⟨by decide, debounceSuppressionLaw 100 idOp 5 7 [(50, 8)] (by decide)⟩

/-- C3 (counterexample).  The claim says that with `maxWait` set, a burst
with all gaps `< wait` still yields exactly one wrapped-operation call.
With `wait = 100, maxWait = 300` on a fresh wrapper whose first call
arrives at clock reading 1000, the source computes
`delay = min(wait, maxWait − (now − lastExecTime))` with
`lastExecTime = 0`, i.e. `min(100, 300 − 1000) < 0`, clamped to `0` by
`setTimeout` — so the first call executes immediately, and the burst of two
calls with gap `50 < wait` produces two executions, not one. -/
theorem debounceMaxWaitCounterexample :
    burstGapsB 100 1000 ([(1050, 1)] : List (Nat × Nat)) = true ∧
    (debRun ⟨100, false, true, some 300⟩ idOp [(1000, 0), (1050, 1)]).2 =
      [(1000, 0), (1150, 1)] ∧
    ((debRun ⟨100, false, true, some 300⟩ idOp
        [(1000, 0), (1050, 1)]).2).length ≠ 1 := by
  decide

end Cadence
